import Mathlib

/-!
Shallow embedding of `src/sber_driver.c`, a queue-based character device
driver: a bounded FIFO byte queue (capacity `QUEUE_SIZE = 1000`) stored as a
linked list of one-byte elements, with three open modes (shared, single-open,
multi-open) selected by a global `device_mode`, a global `single_open_lock`
mutex for single-open mode, and per-file binding of a `queue_device`.

Bytes are modelled as `Nat`, the element list as `List Nat` (head of the list
is the head of the queue, `list_add_tail` appends at the end), the `data_size`
counter as a separate `Nat` field exactly as the C keeps a separate counter,
and the fallible environment (`kmalloc`, `copy_from_user`, `copy_to_user`)
as explicit oracles indexed by the loop variable `i`.  Error codes are the
Linux errno values the source returns, as negative `Int`s.  A `device_read`
that would dereference `list_first_entry` of an empty list (possible only
when `data_size` disagrees with the element count) is undefined behaviour in
the kernel and is modelled as `none`.
-/

namespace SberDriver

/-- Capacity bound from `#define QUEUE_SIZE 1000`. -/
def QUEUE_SIZE : Nat := 1000

/-- `#define DEFAULT_MODE 0` (shared queue). -/
def DEFAULT_MODE : Nat := 0

/-- `#define SINGLE_OPEN_MODE 1` (exclusive). -/
def SINGLE_OPEN_MODE : Nat := 1

/-- `#define MULTI_OPEN_MODE 2` (per-handle queue). -/
def MULTI_OPEN_MODE : Nat := 2

/-- errno value of ENOSPC. -/
def ENOSPC : Int := 28

/-- errno value of ENOMEM. -/
def ENOMEM : Int := 12

/-- errno value of EFAULT. -/
def EFAULT : Int := 14

/-- errno value of EBUSY. -/
def EBUSY : Int := 16

/-- errno value of EINVAL. -/
def EINVAL : Int := 22

/-- `struct queue_device`: the element list (`struct list_head queue`, a list
of `queue_element`s each holding one byte) and the `int data_size` counter.
The rw-semaphore is serialisation-only and has no sequential content. -/
structure queue_device where
  queue : List Nat
  data_size : Nat
deriving DecidableEq, Repr

/-- Outcome of one iteration of the `device_write` loop for a given index:
`kmalloc` succeeds and `copy_from_user` succeeds (`wOk`), `kmalloc` returns
NULL (`wAllocFail`), or `copy_from_user` fails (`wCopyFail`). -/
inductive WriteStep where
  | wOk
  | wAllocFail
  | wCopyFail
deriving DecidableEq, Repr

/-- Environment in which every `kmalloc` and every `copy_from_user`
succeeds. -/
def okW : Nat → WriteStep := fun _ => WriteStep.wOk

/-- Environment in which every `copy_to_user` succeeds. -/
def okR : Nat → Bool := fun _ => true

/-- The `for` loop of `device_write` (lines 144-161): for each byte, allocate
an element (`break` with `-ENOMEM` on failure), copy the byte from the user
buffer (free the element and `break` with `-EFAULT` on failure), then
`list_add_tail` and `data_size++`.  Returns the final device state, `ret`,
and the loop counter `i`. -/
def write_loop (env : Nat → WriteStep) : List Nat → Nat → queue_device → queue_device × Int × Nat
  | [], i, dev => (dev, 0, i)
  | b :: rest, i, dev =>
    match env i with
    | WriteStep.wAllocFail => (dev, -ENOMEM, i)
    | WriteStep.wCopyFail => (dev, -EFAULT, i)
    | WriteStep.wOk =>
      write_loop env rest (i + 1) { queue := dev.queue ++ [b], data_size := dev.data_size + 1 }

/-- `device_write` (lines 132-166): reject with `-ENOSPC` when
`count + data_size > QUEUE_SIZE`, otherwise run the append loop and return
`ret ? ret : i`. -/
def device_write (env : Nat → WriteStep) (buf : List Nat) (dev : queue_device) :
    queue_device × Int :=
  if buf.length + dev.data_size > QUEUE_SIZE then
    (dev, -ENOSPC)
  else
    let r := write_loop env buf 0 dev
    (r.1, if r.2.1 ≠ 0 then r.2.1 else (r.2.2 : Int))

/-- The `for` loop of `device_read` (lines 189-201): while `i < count` and
`data_size > 0`, take `list_first_entry`, copy its byte to the user buffer
(`break` with `-EFAULT` on failure, leaving the element in place), then
`list_del`, `kfree`, `data_size--`.  Taking `list_first_entry` of an empty
list (reachable only when `data_size` disagrees with the element count) is
undefined behaviour, modelled as `none`.  Returns the device state, the bytes
delivered to the caller, `ret`, and the loop counter `i`. -/
def read_loop (env : Nat → Bool) : Nat → Nat → queue_device → Option (queue_device × List Nat × Int × Nat)
  | 0, i, dev => some (dev, [], 0, i)
  | n + 1, i, dev =>
    if dev.data_size > 0 then
      match dev.queue with
      | [] => none
      | b :: rest =>
        if env i then
          match read_loop env n (i + 1) { queue := rest, data_size := dev.data_size - 1 } with
          | none => none
          | some (dev2, out, ret, j) => some (dev2, b :: out, ret, j)
        else
          some (dev, [], -EFAULT, i)
    else
      some (dev, [], 0, i)

/-- `device_read` (lines 182-206): run the removal loop and return
`ret ? ret : i`, together with the bytes delivered to the user buffer. -/
def device_read (env : Nat → Bool) (count : Nat) (dev : queue_device) :
    Option (queue_device × List Nat × Int) :=
  match read_loop env count 0 dev with
  | none => none
  | some (dev2, out, ret, i) => some (dev2, out, if ret ≠ 0 then ret else (i : Int))

/-- The global driver state: `device_mode`, whether `single_open_lock` is
held, and the static `default_queue`. -/
structure driver_state where
  device_mode : Nat
  single_open_lock : Bool
  default_queue : queue_device
deriving DecidableEq, Repr

/-- What a file's `private_data` points at: the static `default_queue`
(`shared`), or a per-handle `queue_device` allocated by `kzalloc`
(`own`). -/
inductive FileQueue where
  | shared
  | own (q : queue_device)
deriving DecidableEq, Repr

/-- Result of `device_open`: a file bound to a queue, or an errno. -/
inductive OpenResult where
  | ok (f : FileQueue)
  | err (e : Int)
deriving DecidableEq, Repr

/-- `device_open` (lines 55-81): in `SINGLE_OPEN_MODE`, `mutex_trylock` the
`single_open_lock` and fail with `-EBUSY` if it is already held; in
`MULTI_OPEN_MODE`, `kzalloc` a fresh zeroed `queue_device` (`-ENOMEM` if the
allocation fails, modelled by the `allocOk` oracle); otherwise bind to
`default_queue`.  `mutex_trylock` never blocks: the call always returns
immediately. -/
def device_open (allocOk : Bool) (st : driver_state) : driver_state × OpenResult :=
  if st.device_mode = SINGLE_OPEN_MODE then
    if st.single_open_lock then
      (st, OpenResult.err (-EBUSY))
    else
      ({ st with single_open_lock := true }, OpenResult.ok FileQueue.shared)
  else if st.device_mode = MULTI_OPEN_MODE then
    if allocOk then
      (st, OpenResult.ok (FileQueue.own { queue := [], data_size := 0 }))
    else
      (st, OpenResult.err (-ENOMEM))
  else
    (st, OpenResult.ok FileQueue.shared)

/-- Observable actions of one `device_release` call: whether it performed
`mutex_unlock(&single_open_lock)` and whether it performed
`kfree(queue_dev)` on the bound queue instance. -/
structure ReleaseEffect where
  unlocked : Bool
  freed_instance : Bool
deriving DecidableEq, Repr

/-- `device_release` (lines 95-116): if the global `device_mode` is
`SINGLE_OPEN_MODE` *at release time*, `mutex_unlock` the lock; then delete
and `kfree` every element of the bound queue — note the source never resets
`data_size` here; finally, if the global `device_mode` is `MULTI_OPEN_MODE`
*at release time*, `kfree` the queue instance itself. -/
def device_release (st : driver_state) (f : FileQueue) : driver_state × ReleaseEffect :=
  let unlocked := st.device_mode = SINGLE_OPEN_MODE
  let st1 := if unlocked then { st with single_open_lock := false } else st
  let st2 :=
    match f with
    | FileQueue.shared =>
      { st1 with default_queue := { st1.default_queue with queue := [] } }
    | FileQueue.own _ => st1
  (st2, { unlocked := decide unlocked,
          freed_instance := decide (st.device_mode = MULTI_OPEN_MODE) })

/-- `device_ioctl` (lines 220-237): commands 0, 1, 2 overwrite the global
`device_mode`; any other command returns `-EINVAL` and leaves it alone. -/
def device_ioctl (st : driver_state) (cmd : Nat) : driver_state × Int :=
  match cmd with
  | 0 => ({ st with device_mode := DEFAULT_MODE }, 0)
  | 1 => ({ st with device_mode := SINGLE_OPEN_MODE }, 0)
  | 2 => ({ st with device_mode := MULTI_OPEN_MODE }, 0)
  | _ => (st, -EINVAL)

/-- Global state after `queue_init` (lines 269-271): mode `DEFAULT_MODE`,
lock unheld, `default_queue` empty with `data_size = 0`. -/
def init_state : driver_state :=
  { device_mode := DEFAULT_MODE
    single_open_lock := false
    default_queue := { queue := [], data_size := 0 } }

/-- A write issued through a file handle: a `shared` file mutates
`default_queue` inside the global state, an `own` file mutates its private
instance. -/
def file_write (env : Nat → WriteStep) (buf : List Nat) (st : driver_state) (f : FileQueue) :
    driver_state × FileQueue × Int :=
  match f with
  | FileQueue.shared =>
    let r := device_write env buf st.default_queue
    ({ st with default_queue := r.1 }, FileQueue.shared, r.2)
  | FileQueue.own q =>
    let r := device_write env buf q
    (st, FileQueue.own r.1, r.2)

/-- A read issued through a file handle, analogous to `file_write`. -/
def file_read (env : Nat → Bool) (count : Nat) (st : driver_state) (f : FileQueue) :
    Option (driver_state × FileQueue × List Nat × Int) :=
  match f with
  | FileQueue.shared =>
    match device_read env count st.default_queue with
    | none => none
    | some (q2, out, ret) => some ({ st with default_queue := q2 }, FileQueue.shared, out, ret)
  | FileQueue.own q =>
    match device_read env count q with
    | none => none
    | some (q2, out, ret) => some (st, FileQueue.own q2, out, ret)

/-- A sequence of fully successful `device_write` calls on one queue. -/
def writeAll (bss : List (List Nat)) (dev : queue_device) : queue_device :=
  match bss with
  | [] => dev
  | bs :: rest => writeAll rest (device_write okW bs dev).1

/-- A sequence of `device_read` calls on one queue with the requested byte
counts, collecting everything delivered to the caller. -/
def readAll (ns : List Nat) (dev : queue_device) : Option (queue_device × List Nat) :=
  match ns with
  | [] => some (dev, [])
  | n :: rest =>
    match device_read okR n dev with
    | none => none
    | some (dev2, out, _) =>
      match readAll rest dev2 with
      | none => none
      | some (dev3, outs) => some (dev3, out ++ outs)

/-! ## Write-path lemmas -/

/-- When every allocation and copy succeeds, the write loop appends the whole
buffer at the tail and increments `data_size` once per byte. -/
theorem write_loop_ok (buf : List Nat) :
    ∀ (i : Nat) (dev : queue_device),
      write_loop okW buf i dev =
        ({ queue := dev.queue ++ buf, data_size := dev.data_size + buf.length },
          0, i + buf.length) := by
  induction buf with
  | nil => intro i dev; simp [write_loop]
  | cons b rest ih =>
    intro i dev
    simp only [write_loop, okW, ih]
    simp [List.append_assoc]
    omega

/-- A fully successful, non-overflowing `device_write` appends the buffer and
returns the byte count. -/
theorem device_write_ok (buf : List Nat) (dev : queue_device)
    (h : buf.length + dev.data_size ≤ QUEUE_SIZE) :
    device_write okW buf dev =
      ({ queue := dev.queue ++ buf, data_size := dev.data_size + buf.length },
        (buf.length : Int)) := by
  rw [device_write, if_neg (by omega)]
  simp [write_loop_ok]

/-- The `ret` accumulator of the write loop is `0`, `-ENOMEM` or `-EFAULT`. -/
theorem write_loop_ret_cases (env : Nat → WriteStep) (buf : List Nat) :
    ∀ (i : Nat) (dev : queue_device),
      (write_loop env buf i dev).2.1 = 0 ∨ (write_loop env buf i dev).2.1 = -ENOMEM ∨
        (write_loop env buf i dev).2.1 = -EFAULT := by
  induction buf with
  | nil => intro i dev; simp [write_loop]
  | cons b rest ih =>
    intro i dev
    simp only [write_loop]
    cases env i
    · exact ih (i + 1) _
    · simp
    · simp

/-- If the environment first fails at loop index `k` (allocation or copy),
the write loop stops there having appended exactly the first `k` bytes. -/
theorem write_loop_fail :
    ∀ (k : Nat) (buf : List Nat) (s : Nat) (dev : queue_device) (env : Nat → WriteStep),
      k < buf.length → (∀ j, j < k → env (s + j) = WriteStep.wOk) →
      env (s + k) ≠ WriteStep.wOk →
      write_loop env buf s dev =
        ({ queue := dev.queue ++ buf.take k, data_size := dev.data_size + k },
          if env (s + k) = WriteStep.wAllocFail then -ENOMEM else -EFAULT, s + k) := by
  intro k
  induction k with
  | zero =>
    intro buf s dev env hk hok hfail
    cases buf with
    | nil => simp at hk
    | cons b rest =>
      simp only [write_loop]
      rcases henv : env s with _ | _ | _
      · exact absurd (by simpa using henv) (by simpa using hfail)
      · simp [henv]
      · simp [henv]
  | succ k ih =>
    intro buf s dev env hk hok hfail
    cases buf with
    | nil => simp at hk
    | cons b rest =>
      have h0 : env s = WriteStep.wOk := by simpa using hok 0 (Nat.succ_pos k)
      simp only [write_loop, h0]
      rw [ih rest (s + 1) _ env (by simpa using hk)
        (by
          intro j hj
          have e : s + 1 + j = s + (j + 1) := by omega
          rw [e]
          exact hok (j + 1) (by omega))
        (by
          have e : s + 1 + k = s + (k + 1) := by omega
          rw [e]
          exact hfail)]
      have e : s + 1 + k = s + (k + 1) := by omega
      rw [e]
      simp [List.append_assoc]
      omega

/-- Claim C2: a write fails with `-ENOSPC` (Overflow) exactly when the
current `data_size` plus the requested byte count exceeds `QUEUE_SIZE`
(1000); `-ENOSPC` arises from no other trigger, and on overflow the call
returns with the queue state completely unchanged. -/
theorem C2_write_overflow_iff (env : Nat → WriteStep) (buf : List Nat) (dev : queue_device) :
    ((device_write env buf dev).2 = -ENOSPC ↔ buf.length + dev.data_size > QUEUE_SIZE) ∧
      (buf.length + dev.data_size > QUEUE_SIZE → device_write env buf dev = (dev, -ENOSPC)) := by
  have hov : buf.length + dev.data_size > QUEUE_SIZE →
      device_write env buf dev = (dev, -ENOSPC) := by
    intro h
    rw [device_write, if_pos h]
  refine ⟨⟨?_, fun h => by rw [hov h]⟩, hov⟩
  intro h
  by_contra hc
  rw [device_write, if_neg hc] at h
  rcases write_loop_ret_cases env buf 0 dev with h0 | h0 | h0 <;>
    simp only [h0, ENOMEM, EFAULT, ENOSPC] at h <;> omega

/-- Witness for C2 at a concrete overflowing input. -/
theorem C2_write_overflow_iff_witness :
    device_write okW [7] { queue := [], data_size := 1000 } =
      ({ queue := [], data_size := 1000 }, -ENOSPC) :=
  (C2_write_overflow_iff okW [7] { queue := [], data_size := 1000 }).2 (by decide)

/-- Claim C7: when a write fails partway (the environment first fails at
loop index `k`, by allocation failure or by copy-from-user failure), the `k`
bytes already appended remain in the queue, `data_size` reflects exactly
those `k` bytes, and the call returns only the negative error code
(`-ENOMEM` or `-EFAULT`), never the partial count. -/
theorem C7_write_partial_failure (env : Nat → WriteStep) (buf : List Nat)
    (dev : queue_device) (k : Nat)
    (hcap : buf.length + dev.data_size ≤ QUEUE_SIZE)
    (hk : k < buf.length)
    (hok : ∀ j, j < k → env j = WriteStep.wOk)
    (hfail : env k ≠ WriteStep.wOk) :
    device_write env buf dev =
      ({ queue := dev.queue ++ buf.take k, data_size := dev.data_size + k },
        if env k = WriteStep.wAllocFail then -ENOMEM else -EFAULT) ∧
      (device_write env buf dev).2 < 0 := by
  have hloop := write_loop_fail k buf 0 dev env hk (by simpa using hok) (by simpa using hfail)
  have hw : device_write env buf dev =
      ({ queue := dev.queue ++ buf.take k, data_size := dev.data_size + k },
        if env k = WriteStep.wAllocFail then -ENOMEM else -EFAULT) := by
    rw [device_write, if_neg (by omega), hloop]
    simp only [Nat.zero_add] at hloop ⊢
    rcases h : env k with _ | _ | _
    · exact absurd h (by simpa using hfail)
    · simp [ENOMEM]
    · simp [EFAULT]
  refine ⟨hw, ?_⟩
  rw [hw]
  rcases h : env k with _ | _ | _
  · exact absurd h (by simpa using hfail)
  · simp [ENOMEM]
  · simp [EFAULT]

/-- Witness for C7: write of three bytes with allocation failing at the
second byte keeps the first byte queued and returns `-ENOMEM`. -/
theorem C7_write_partial_failure_witness :
    device_write (fun i => if i = 1 then WriteStep.wAllocFail else WriteStep.wOk)
        [7, 8, 9] { queue := [], data_size := 0 } =
      ({ queue := [7], data_size := 1 }, -ENOMEM) ∧
      (device_write (fun i => if i = 1 then WriteStep.wAllocFail else WriteStep.wOk)
        [7, 8, 9] { queue := [], data_size := 0 }).2 < 0 := by
  have h := C7_write_partial_failure
    (fun i => if i = 1 then WriteStep.wAllocFail else WriteStep.wOk)
    [7, 8, 9] { queue := [], data_size := 0 } 1 (by decide) (by decide)
    (by intro j hj; have hj0 : j = 0 := by omega
        subst hj0; rfl)
    (by decide)
  simpa using h

/-! ## Read-path lemmas -/

/-- When `data_size` agrees with the element count and every copy-to-user
succeeds, the read loop removes the first `min n length` bytes. -/
theorem read_loop_ok (n : Nat) :
    ∀ (i : Nat) (dev : queue_device), dev.data_size = dev.queue.length →
      read_loop okR n i dev =
        some ({ queue := dev.queue.drop n, data_size := dev.queue.length - n },
          dev.queue.take n, 0, i + min n dev.queue.length) := by
  induction n with
  | zero =>
    intro i dev hinv
    rcases dev with ⟨q, ds⟩
    simp at hinv
    subst hinv
    simp [read_loop]
  | succ n ih =>
    intro i dev hinv
    rcases dev with ⟨q, ds⟩
    simp at hinv
    subst hinv
    cases q with
    | nil => simp [read_loop]
    | cons b rest =>
      simp only [read_loop]
      rw [if_pos (by simp)]
      simp only [okR, if_pos trivial]
      rw [ih (i + 1) { queue := rest, data_size := (b :: rest).length - 1 } (by simp)]
      simp
      omega

/-- A fully delivered `device_read` removes exactly `min n length` bytes
from the head and returns that count. -/
theorem device_read_ok (n : Nat) (dev : queue_device)
    (hinv : dev.data_size = dev.queue.length) :
    device_read okR n dev =
      some ({ queue := dev.queue.drop n, data_size := dev.queue.length - n },
        dev.queue.take n, (min n dev.queue.length : Int)) := by
  rw [device_read, read_loop_ok n 0 dev hinv]
  simp

/-- If copy-to-user first fails at loop index `k` (with `k` below both the
requested count and the queue length), the read loop stops with the first
`k` bytes removed and delivered and `ret = -EFAULT`; the failed byte is not
removed. -/
theorem read_loop_fail :
    ∀ (k n s : Nat) (dev : queue_device) (env : Nat → Bool),
      dev.data_size = dev.queue.length → k < n → k < dev.queue.length →
      (∀ j, j < k → env (s + j) = true) → env (s + k) = false →
      read_loop env n s dev =
        some ({ queue := dev.queue.drop k, data_size := dev.queue.length - k },
          dev.queue.take k, -EFAULT, s + k) := by
  intro k
  induction k with
  | zero =>
    intro n s dev env hinv hkn hkl hok hfail
    rcases dev with ⟨q, ds⟩
    simp at hinv
    subst hinv
    cases n with
    | zero => omega
    | succ n =>
      cases q with
      | nil => simp at hkl
      | cons b rest =>
        simp only [read_loop]
        rw [if_pos (by simp)]
        rw [show env s = false by simpa using hfail]
        simp
  | succ k ih =>
    intro n s dev env hinv hkn hkl hok hfail
    rcases dev with ⟨q, ds⟩
    simp at hinv
    subst hinv
    cases n with
    | zero => omega
    | succ n =>
      cases q with
      | nil => simp at hkl
      | cons b rest =>
        simp only [read_loop]
        rw [if_pos (by simp)]
        rw [show env s = true by simpa using hok 0 (Nat.succ_pos k)]
        rw [if_pos rfl]
        rw [ih n (s + 1) { queue := rest, data_size := (b :: rest).length - 1 } env
          (by simp) (by omega) (by simpa using hkl)
          (by
            intro j hj
            have e : s + 1 + j = s + (j + 1) := by omega
            rw [e]
            exact hok (j + 1) (by omega))
          (by
            have e : s + 1 + k = s + (k + 1) := by omega
            rw [e]
            exact hfail)]
        simp
        omega

/-- `device_read` under a copy failure at index `k`: `-EFAULT` is returned,
not the partial count. -/
theorem device_read_fail (env : Nat → Bool) (n : Nat) (dev : queue_device) (k : Nat)
    (hinv : dev.data_size = dev.queue.length) (hkn : k < n) (hkl : k < dev.queue.length)
    (hok : ∀ j, j < k → env j = true) (hfail : env k = false) :
    device_read env n dev =
      some ({ queue := dev.queue.drop k, data_size := dev.queue.length - k },
        dev.queue.take k, -EFAULT) := by
  rw [device_read,
    read_loop_fail k n 0 dev env hinv hkn hkl (by simpa using hok) (by simpa using hfail)]
  simp [EFAULT]

/-- The head of `l.drop k` is the element of `l` at index `k`. -/
theorem head?_of_drop (l : List Nat) :
    ∀ k : Nat, (l.drop k).head? = l.get? k := by
  induction l with
  | nil => intro k; cases k <;> simp
  | cons b rest ih =>
    intro k
    cases k with
    | zero => simp
    | succ k => simp [ih k]

/-- Claim C9: with no transfer failure, a read removes exactly
`min max_count length` bytes from the head and returns that count, which is
never negative (never an error); on an empty queue it returns zero bytes and
leaves the queue unchanged, so repeated reads on an empty queue all return
zero.  (Requires the length-counter invariant `data_size = length`.) -/
theorem C9_read_removes_min (n : Nat) (dev : queue_device)
    (hinv : dev.data_size = dev.queue.length) :
    device_read okR n dev =
      some ({ queue := dev.queue.drop n, data_size := dev.queue.length - n },
        dev.queue.take n, (min n dev.queue.length : Int)) ∧
      (0 : Int) ≤ (min n dev.queue.length : Int) ∧
      (dev.queue = [] → device_read okR n dev = some (dev, [], 0)) := by
  refine ⟨device_read_ok n dev hinv, by positivity, ?_⟩
  intro h
  have hd : dev = { queue := [], data_size := 0 } := by
    rcases dev with ⟨q, ds⟩
    simp_all
  subst hd
  rw [device_read_ok n { queue := [], data_size := 0 } (by simp)]
  simp

/-- Witness for C9: a concrete read of 2 from a 3-byte queue, and a read on
an empty queue. -/
theorem C9_read_removes_min_witness :
    device_read okR 2 { queue := [5, 6, 7], data_size := 3 } =
      some ({ queue := [7], data_size := 1 }, [5, 6], 2) ∧
      device_read okR 4 { queue := [], data_size := 0 } =
        some ({ queue := [], data_size := 0 }, [], 0) := by
  constructor
  · have h := (C9_read_removes_min 2 { queue := [5, 6, 7], data_size := 3 } (by decide)).1
    simpa using h
  · exact (C9_read_removes_min 4 { queue := [], data_size := 0 } (by decide)).2.2 rfl

/-- Claim C10: when delivery of a byte fails during a read (copy-to-user
first fails at loop index `k`, inside the loop's range), exactly the `k`
bytes already delivered have been removed, `data_size` has decreased by
exactly `k`, the failed byte stays at the head of the queue, and the call
returns only `-EFAULT`, not the partial count. -/
theorem C10_read_fault_partial (env : Nat → Bool) (n : Nat) (dev : queue_device) (k : Nat)
    (hinv : dev.data_size = dev.queue.length) (hkn : k < n) (hkl : k < dev.queue.length)
    (hok : ∀ j, j < k → env j = true) (hfail : env k = false) :
    device_read env n dev =
      some ({ queue := dev.queue.drop k, data_size := dev.queue.length - k },
        dev.queue.take k, -EFAULT) ∧
      (dev.queue.drop k).head? = dev.queue.get? k ∧
      dev.queue.length - k + k = dev.queue.length ∧
      (-EFAULT : Int) < 0 := by
  refine ⟨device_read_fail env n dev k hinv hkn hkl hok hfail, head?_of_drop dev.queue k,
    by omega, by decide⟩

/-- Witness for C10: reading 3 bytes where the copy of the second byte
fails removes and delivers only the first byte; the failed byte stays at the
head. -/
theorem C10_read_fault_partial_witness :
    device_read (fun i => decide (i ≠ 1)) 3 { queue := [4, 5, 6], data_size := 3 } =
      some ({ queue := [5, 6], data_size := 2 }, [4], -EFAULT) ∧
      ([4, 5, 6].drop 1).head? = [4, 5, 6].get? 1 := by
  have h := C10_read_fault_partial (fun i => decide (i ≠ 1)) 3
    { queue := [4, 5, 6], data_size := 3 } 1 (by decide) (by decide) (by decide)
    (by intro j hj; have hj0 : j = 0 := by omega
        subst hj0; rfl)
    (by decide)
  exact ⟨by simpa using h.1, h.2.1⟩

/-- A sequence of fully successful writes appends the concatenation of the
buffers, provided the total does not overflow. -/
theorem writeAll_ok :
    ∀ (bss : List (List Nat)) (dev : queue_device),
      dev.data_size = dev.queue.length →
      dev.queue.length + (bss.map List.length).sum ≤ QUEUE_SIZE →
      writeAll bss dev =
        { queue := dev.queue ++ bss.flatten,
          data_size := dev.queue.length + (bss.map List.length).sum } := by
  intro bss
  induction bss with
  | nil =>
    intro dev hinv hcap
    rcases dev with ⟨q, ds⟩
    simp at hinv
    subst hinv
    simp [writeAll]
  | cons bs rest ih =>
    intro dev hinv hcap
    simp only [writeAll]
    rw [device_write_ok bs dev (by simp at hcap ⊢; omega)]
    rw [ih { queue := dev.queue ++ bs, data_size := dev.data_size + bs.length }
      (by simp [hinv]) (by simp at hcap ⊢; omega)]
    simp [hinv, List.append_assoc]
    omega

/-- A sequence of fully delivered reads with counts `ns` removes and delivers
the first `ns.sum` bytes. -/
theorem readAll_ok :
    ∀ (ns : List Nat) (dev : queue_device),
      dev.data_size = dev.queue.length →
      readAll ns dev =
        some ({ queue := dev.queue.drop ns.sum, data_size := dev.queue.length - ns.sum },
          dev.queue.take ns.sum) := by
  intro ns
  induction ns with
  | nil =>
    intro dev hinv
    rcases dev with ⟨q, ds⟩
    simp at hinv
    subst hinv
    simp [readAll]
  | cons n rest ih =>
    intro dev hinv
    have h1 := device_read_ok n dev hinv
    have h2 := ih { queue := dev.queue.drop n, data_size := dev.queue.length - n } (by simp)
    simp only [readAll, h1, h2]
    simp only [List.drop_drop, List.length_drop, List.take_add, List.sum_cons,
      Option.some_inj, Prod.mk.injEq, queue_device.mk.injEq]
    exact ⟨⟨trivial, by omega⟩, trivial⟩

/-- A sequence of successful writes starting from the fresh empty queue
leaves exactly the concatenation of the buffers, with a matching counter. -/
theorem writeAll_empty (bss : List (List Nat))
    (hcap : (bss.map List.length).sum ≤ QUEUE_SIZE) :
    writeAll bss { queue := [], data_size := 0 } =
      { queue := bss.flatten, data_size := bss.flatten.length } := by
  rw [writeAll_ok bss { queue := [], data_size := 0 } (by simp) (by simpa using hcap)]
  simp [List.length_flatten]

/-- Claim C1: for every sequence of writes with total length at most 1000,
starting from a fresh empty queue, any subsequent sequence of reads whose
counts add up to the same total delivers exactly the bytes written, in
exactly the order they were written, and empties the queue (FIFO). -/
theorem C1_fifo_roundtrip (bss : List (List Nat)) (ns : List Nat)
    (hcap : (bss.map List.length).sum ≤ QUEUE_SIZE)
    (hns : ns.sum = (bss.map List.length).sum) :
    readAll ns (writeAll bss { queue := [], data_size := 0 }) =
      some ({ queue := [], data_size := 0 }, bss.flatten) := by
  rw [writeAll_empty bss hcap]
  rw [readAll_ok ns { queue := bss.flatten, data_size := bss.flatten.length } (by simp)]
  have h2 : ns.sum = bss.flatten.length := by rw [hns, List.length_flatten]
  simp [h2]

/-- Witness for C1: writing [1,2] then [3] and reading back 2 then 1 bytes
returns [1,2,3] and empties the queue. -/
theorem C1_fifo_roundtrip_witness :
    readAll [2, 1] (writeAll [[1, 2], [3]] { queue := [], data_size := 0 }) =
      some ({ queue := [], data_size := 0 }, [1, 2, 3]) := by
  have h := C1_fifo_roundtrip [[1, 2], [3]] [2, 1] (by decide) (by decide)
  simpa using h

/-! ## Session-level claims -/

/-- Claim C6: in single-open (Exclusive) mode, an open while the lock is
held fails immediately with `-EBUSY` and changes nothing — `mutex_trylock`
never waits, which the embedding reflects by `device_open` being a total
function that returns at once; an open while the lock is free succeeds and
takes the lock, a second open then fails with `-EBUSY`, and after the
holder closes (releasing the lock) a subsequent open succeeds again. -/
theorem C6_exclusive_busy (st : driver_state) (a b c : Bool)
    (hm : st.device_mode = SINGLE_OPEN_MODE) :
    (st.single_open_lock = true → device_open a st = (st, OpenResult.err (-EBUSY))) ∧
    (st.single_open_lock = false →
      device_open a st =
        ({ st with single_open_lock := true }, OpenResult.ok FileQueue.shared) ∧
      (device_open b { st with single_open_lock := true }).2 = OpenResult.err (-EBUSY) ∧
      (device_release { st with single_open_lock := true }
        FileQueue.shared).1.single_open_lock = false ∧
      (device_open c (device_release { st with single_open_lock := true }
        FileQueue.shared).1).2 = OpenResult.ok FileQueue.shared) := by
  constructor
  · intro hl
    simp [device_open, hm, hl]
  · intro hl
    refine ⟨by simp [device_open, hm, hl], by simp [device_open, hm], ?_, ?_⟩
    · simp [device_release, hm]
    · simp [device_release, device_open, hm]

/-- The global state with the mode switched to single-open, as produced by
`ioctl(1)` from the initial state. -/
def excl_state : driver_state := (device_ioctl init_state 1).1

/-- Witness for C6 at the concrete single-open state. -/
theorem C6_exclusive_busy_witness :
    device_open true { excl_state with single_open_lock := true } =
      ({ excl_state with single_open_lock := true }, OpenResult.err (-EBUSY)) ∧
    device_open true excl_state =
      ({ excl_state with single_open_lock := true }, OpenResult.ok FileQueue.shared) := by
  constructor
  · exact (C6_exclusive_busy { excl_state with single_open_lock := true }
      true true true rfl).1 rfl
  · exact ((C6_exclusive_busy excl_state true true true rfl).2 rfl).1

/-- Claim C8: in multi-open (PerHandle) mode each open returns a fresh empty
private queue instance; a write through one private handle leaves the global
state untouched, so what a read through any other private handle returns is
unchanged; concretely, after A writes "data1" and B writes "data2" on their
own handles, reading 5 bytes through A yields exactly "data1". -/
theorem C8_perhandle_isolation :
    (∀ (st : driver_state) (qA qB : queue_device) (envW : Nat → WriteStep)
        (bufB : List Nat) (envR : Nat → Bool) (na : Nat),
      (file_write envW bufB st (FileQueue.own qB)).1 = st ∧
      file_read envR na (file_write envW bufB st (FileQueue.own qB)).1 (FileQueue.own qA) =
        file_read envR na st (FileQueue.own qA)) ∧
    (device_open true (device_ioctl init_state 2).1).2 =
      OpenResult.ok (FileQueue.own { queue := [], data_size := 0 }) ∧
    file_read okR 5
        (file_write okW [100, 97, 116, 97, 50]
          (file_write okW [100, 97, 116, 97, 49] (device_ioctl init_state 2).1
            (FileQueue.own { queue := [], data_size := 0 })).1
          (FileQueue.own { queue := [], data_size := 0 })).1
        (file_write okW [100, 97, 116, 97, 49] (device_ioctl init_state 2).1
          (FileQueue.own { queue := [], data_size := 0 })).2.1 =
      some ((device_ioctl init_state 2).1,
        FileQueue.own { queue := [], data_size := 0 }, [100, 97, 116, 97, 49], 5) := by
  refine ⟨fun st qA qB envW bufB envR na => ⟨rfl, rfl⟩, ?_, ?_⟩
  · decide
  · decide

/-- Claim C3 evaluation: the actions of `device_release` are decided by the
global `device_mode` at close time, not by the mode at open time.  A handle
opened under multi-open mode gets a private instance; closing with the mode
still 2 performs the `kfree` of that instance, but after an intervening
`ioctl(0)` the very same close skips the `kfree` (the instance leaks), and
after an intervening `ioctl(1)` the close performs `mutex_unlock` on the
`single_open_lock` it never acquired. -/
theorem C3_release_uses_close_time_mode :
    (device_open true (device_ioctl init_state 2).1).2 =
      OpenResult.ok (FileQueue.own { queue := [], data_size := 0 }) ∧
    (device_release (device_ioctl init_state 2).1
      (FileQueue.own { queue := [], data_size := 0 })).2.freed_instance = true ∧
    (device_release (device_ioctl (device_ioctl init_state 2).1 0).1
      (FileQueue.own { queue := [], data_size := 0 })).2.freed_instance = false ∧
    (device_release (device_ioctl (device_ioctl init_state 2).1 1).1
      (FileQueue.own { queue := [], data_size := 0 })).2.unlocked = true := by
  decide

/-- Claim C4 evaluation: `device_release` removes and destroys every element
of the bound queue (that much of the claim holds), but the source never
resets `data_size`; after writing "temporary" (9 bytes) on the shared queue
and closing, the shared queue has no elements yet `data_size = 9`, and a
read through a fresh open finds `data_size > 0` with an empty element list
and dereferences `list_first_entry` of an empty list — undefined behaviour
(`none`) — instead of returning 0 bytes. -/
theorem C4_release_clears_elements_but_not_counter :
    (device_release (file_write okW [116, 101, 109, 112, 111, 114, 97, 114, 121]
        init_state FileQueue.shared).1 FileQueue.shared).1.default_queue.queue = [] ∧
    (device_release (file_write okW [116, 101, 109, 112, 111, 114, 97, 114, 121]
        init_state FileQueue.shared).1 FileQueue.shared).1.default_queue.data_size = 9 ∧
    (device_open true (device_release (file_write okW [116, 101, 109, 112, 111, 114, 97, 114, 121]
        init_state FileQueue.shared).1 FileQueue.shared).1).2 = OpenResult.ok FileQueue.shared ∧
    device_read okR 9 (device_release (file_write okW [116, 101, 109, 112, 111, 114, 97, 114, 121]
        init_state FileQueue.shared).1 FileQueue.shared).1.default_queue = none := by
  decide

/-- Claim C5 evaluation: the length counter stops matching the number of
linked elements after a close.  Writing one byte on the shared queue gives
`data_size = 1` with one element; the subsequent `device_release` deletes
the element but leaves `data_size = 1` over an empty list. -/
theorem C5_counter_detached_by_release :
    (file_write okW [42] init_state FileQueue.shared).1.default_queue.data_size = 1 ∧
    (file_write okW [42] init_state FileQueue.shared).1.default_queue.queue.length = 1 ∧
    (device_release (file_write okW [42] init_state FileQueue.shared).1
      FileQueue.shared).1.default_queue.data_size = 1 ∧
    (device_release (file_write okW [42] init_state FileQueue.shared).1
      FileQueue.shared).1.default_queue.queue.length = 0 := by
  decide

end SberDriver
